import Mathlib

/-!
Shallow embedding of the ReportPortal Go client (package rp, files
test-item.go and client.go) and verification of its specification claims.

Modelling conventions:
- Go strings are Lean String values (the inputs in question are ASCII, so
  byte positions and character positions coincide).
- JSON documents are values of the inductive Json below; Go json.Marshal
  of the request structs is translated field by field in declaration
  order, exactly as encoding/json emits them.
- time.Now() is impure; each operation takes the call-time epoch-millis
  value as an explicit parameter called now (the toTimestamp conversion
  from the repository is outside the two source files under study).
- The transport collaborator doRequest is not part of the two source
  files; it is modelled from the spec as a primitive that yields either a
  response or a transport error, exclusively (DoResult below).
- Each stateful method of TestItem becomes a pure function from the
  receiver state and the doRequest outcome to an Outcome plus the new
  receiver state.  A Go statement sequence of the form
    resp, err := doRequest(req, token)
    defer resp.Body.Close()
    if err != nil { return ... }
  evaluates resp.Body at the defer statement; when doRequest reported an
  error the response pointer is nil and that evaluation is a nil pointer
  dereference, i.e. a run-time panic.  The Outcome.crash constructor
  records that behaviour.
-/

/-- JSON values, the wire representation used by the client. -/
inductive Json : Type where
  | null : Json
  | bool : Bool → Json
  | num : Int → Json
  | str : String → Json
  | arr : List Json → Json
  | obj : List (String × Json) → Json

/-- Last-occurrence lookup of a key in a JSON object field list.
Go encoding/json lets a later duplicate key overwrite an earlier one, so
lookup takes the last occurrence. -/
def lastLookup (k : String) : List (String × Json) → Option Json
  | [] => none
  | (k', v) :: rest =>
      match lastLookup k rest with
      | some r => some r
      | none => if k' = k then some v else none

/-- ASCII lowercasing of one character, written with structural
operations so that it reduces in the kernel. -/
def lowerChar (c : Char) : Char :=
  if 'A' ≤ c ∧ c ≤ 'Z' then Char.ofNat (c.toNat + 32) else c

/-- Case-insensitive equality of JSON object keys: Go encoding/json
matches a JSON key to a struct field name preferring an exact match but
also accepting a case-insensitive match.  The keys in question are
ASCII, for which this folding coincides with the Go one. -/
def keyFold (a b : String) : Bool :=
  a.data.map lowerChar == b.data.map lowerChar

/-- Decoding the keys of a JSON object into the single struct field Id
tagged json id, processing the keys in order as Go encoding/json does: a
key matching id case-insensitively assigns the field when its value is a
string (a later match overwrites an earlier one), has no effect when its
value is null, and is a type error otherwise; a key matching no struct
field is skipped whatever its value. -/
def decodeIdFields (acc : String) : List (String × Json) → Option String
  | [] => some acc
  | (k, v) :: rest =>
      if keyFold k "id" then
        match v with
        | Json.str s => decodeIdFields s rest
        | Json.null => decodeIdFields acc rest
        | _ => none
      else decodeIdFields acc rest

/-- Decoding a JSON value into the anonymous Go struct with the single
field Id string tagged json id (test-item.go lines 137 to 139): an
object is decoded key by key starting from the zero value, null leaves
the struct untouched, and a non-object non-null document is a decode
error. -/
def decodeIdObj : Json → Option String
  | Json.null => some ""
  | Json.obj fields => decodeIdFields "" fields
  | _ => none

/-- Decoding the response body: none models bytes that are not valid
JSON, in which case the decoder fails before shape checking. -/
def decodeIdBody : Option Json → Option String
  | none => none
  | some j => decodeIdObj j

/-- Client (client.go lines 361 to 365). -/
structure Client where
  Endpoint : String
  Token : String
  Project : String
deriving DecidableEq

/-- Modelled from the spec: the Launch type is defined in a repository
file outside the two under study; the sources only read launch.Id and
launch.client, so it is embedded as exactly those two components. -/
structure Launch where
  Id : String
  client : Client

/-- Parameters entry of TestItem (test-item.go lines 40 to 43). -/
structure Param where
  Key : String
  Value : String
deriving DecidableEq

/-- TestItem (test-item.go lines 35 to 51).  The Go field Parent is a
pointer to another TestItem; it is embedded as an optional nested
TestItem value, which is why TestItem is an inductive rather than a
structure.  The Go field named Type is called type here because Type is
reserved in Lean. -/
inductive TestItem : Type where
  | mk (Id : String) (Name : String) (Description : String)
       (Parent : Option TestItem) (Parameters : List Param) (Retry : Bool)
       (StartTime : Int) (Tags : List String) (type : String)
       (client : Client) (launch : Launch) : TestItem

def TestItem.Id : TestItem → String
  | .mk i _ _ _ _ _ _ _ _ _ _ => i

def TestItem.Name : TestItem → String
  | .mk _ n _ _ _ _ _ _ _ _ _ => n

def TestItem.Description : TestItem → String
  | .mk _ _ d _ _ _ _ _ _ _ _ => d

def TestItem.Parent : TestItem → Option TestItem
  | .mk _ _ _ p _ _ _ _ _ _ _ => p

def TestItem.Parameters : TestItem → List Param
  | .mk _ _ _ _ ps _ _ _ _ _ _ => ps

def TestItem.Retry : TestItem → Bool
  | .mk _ _ _ _ _ r _ _ _ _ _ => r

def TestItem.StartTime : TestItem → Int
  | .mk _ _ _ _ _ _ st _ _ _ _ => st

def TestItem.Tags : TestItem → List String
  | .mk _ _ _ _ _ _ _ tg _ _ _ => tg

def TestItem.type : TestItem → String
  | .mk _ _ _ _ _ _ _ _ ty _ _ => ty

def TestItem.client : TestItem → Client
  | .mk _ _ _ _ _ _ _ _ _ c _ => c

def TestItem.launch : TestItem → Launch
  | .mk _ _ _ _ _ _ _ _ _ _ l => l

/-- Assignment ti.Id = v (test-item.go line 143). -/
def TestItem.setId : TestItem → String → TestItem
  | .mk _ n d p ps r st tg ty c l, v => .mk v n d p ps r st tg ty c l

/-- Assignment ti.Description = v (test-item.go line 232). -/
def TestItem.setDescription : TestItem → String → TestItem
  | .mk i n _ p ps r st tg ty c l, v => .mk i n v p ps r st tg ty c l

/-- Assignment ti.Tags = v (test-item.go line 233). -/
def TestItem.setTags : TestItem → List String → TestItem
  | .mk i n d p ps r st _ ty c l, v => .mk i n d p ps r st v ty c l

/-- Attachment (test-item.go lines 53 to 58); the Data reader is embedded
as the byte sequence it yields when read to exhaustion. -/
structure Attachment where
  Name : String
  Data : List Nat
  MimeType : String

/-- NewTestItem (test-item.go lines 75 to 85): Id, Parameters, Retry and
StartTime keep their Go zero values. -/
def NewTestItem (launch : Launch) (name description itemType : String)
    (tags : List String) (parent : Option TestItem) : TestItem :=
  TestItem.mk "" name description parent [] false 0 tags itemType launch.client launch

/-- An HTTP response as seen by this client: status code, status text and
body.  The body is the JSON document it parses to, or none when the bytes
are not valid JSON. -/
structure HttpResponse where
  StatusCode : Nat
  Status : String
  Body : Option Json

/-- Modelled from the spec: the transport collaborator doRequest (defined
in a repository file outside the two under study) is a primitive that
returns either a response or a transport error, exclusively; on a
transport error the response pointer is nil. -/
inductive DoResult : Type where
  | resp : HttpResponse → DoResult
  | err : String → DoResult

/-- Result of running one client operation: a returned value, a returned
error, or a run-time panic (nil pointer dereference). -/
inductive Outcome (α : Type) : Type where
  | ok : α → Outcome α
  | fail : String → Outcome α
  | crash : Outcome α
deriving DecidableEq

/-- Body of one part of a multipart request: either a marshalled JSON
document or raw bytes copied from a reader. -/
inductive PartBody : Type where
  | jsonPayload : Json → PartBody
  | bytes : List Nat → PartBody

/-- One part of a multipart body: form-data name, optional filename,
content type, and content. -/
structure MultipartPart where
  Name : String
  Filename : Option String
  ContentType : String
  Content : PartBody

/-- Request body: a single JSON document, a multipart sequence, or empty
(GET requests). -/
inductive ReqBody : Type where
  | json : Json → ReqBody
  | multipart : List MultipartPart → ReqBody
  | empty : ReqBody

/-- An HTTP request as built by this client. -/
structure HttpRequest where
  Method : String
  Url : String
  ContentType : String
  Body : ReqBody

/-- Target URL of Start (test-item.go lines 88 to 94). -/
def startUrl (ti : TestItem) : String :=
  match ti.Parent with
  | some parent => ti.client.Endpoint ++ "/" ++ ti.client.Project ++ "/item/" ++ parent.Id
  | none => ti.client.Endpoint ++ "/" ++ ti.client.Project ++ "/item"

/-- Marshalled Start request body fields in struct declaration order
(test-item.go lines 95 to 113).  The Parameters field of the request
struct is never populated from the receiver, so it stays a nil slice and
marshals as JSON null. -/
def startReqFields (ti : TestItem) (now : Int) : List (String × Json) :=
  [("name", Json.str ti.Name),
   ("description", Json.str ti.Description),
   ("tags", Json.arr (ti.Tags.map Json.str)),
   ("start_time", Json.num now),
   ("launch_id", Json.str ti.launch.Id),
   ("type", Json.str ti.type),
   ("parameters", Json.null)]

/-- The POST request built by Start (test-item.go lines 115 to 126). -/
def startRequest (ti : TestItem) (now : Int) : HttpRequest :=
  { Method := "POST", Url := startUrl ti, ContentType := "application/json",
    Body := ReqBody.json (Json.obj (startReqFields ti now)) }

/-- TestItem.Start from the doRequest call onward (test-item.go lines 128
to 144): on a transport error the deferred resp.Body.Close dereferences a
nil response and panics; a status other than 201 or a decode failure is a
returned error with the receiver unchanged; on 201 with a decoded body
the decoded id is assigned to the receiver. -/
def TestItem.Start (ti : TestItem) (now : Int) (dr : DoResult) : Outcome Unit × TestItem :=
  match dr with
  | DoResult.err _ => (Outcome.crash, ti)
  | DoResult.resp resp =>
      if resp.StatusCode ≠ 201 then
        (Outcome.fail ("failed with status " ++ resp.Status), ti)
      else
        match decodeIdBody resp.Body with
        | none => (Outcome.fail ("failed to decode response from " ++ startUrl ti), ti)
        | some v => (Outcome.ok (), ti.setId v)

/-- Target URL of Finish (test-item.go line 149). -/
def finishUrl (ti : TestItem) : String :=
  ti.client.Endpoint ++ "/" ++ ti.client.Project ++ "/item/" ++ ti.Id

/-- Marshalled Finish request body (test-item.go lines 150 to 153). -/
def finishBody (now : Int) (status : String) : Json :=
  Json.obj [("end_time", Json.num now), ("status", Json.str status)]

/-- TestItem.Finish from the doRequest call onward (test-item.go lines
168 to 176): transport error panics at the deferred close, a status other
than 200 is a returned error, otherwise success; the receiver is never
mutated. -/
def TestItem.Finish (ti : TestItem) (now : Int) (status : String) (dr : DoResult) :
    Outcome Unit × TestItem :=
  match dr with
  | DoResult.err _ => (Outcome.crash, ti)
  | DoResult.resp resp =>
      if resp.StatusCode ≠ 200 then
        (Outcome.fail ("failed with status " ++ resp.Status), ti)
      else (Outcome.ok (), ti)

/-- Request built by getReqForLog (test-item.go lines 300 to 323): a
single JSON object with the four fields item_id, message, level and time,
posted to the log URL. -/
def TestItem.getReqForLog (ti : TestItem) (message level : String) (now : Int) : HttpRequest :=
  { Method := "POST",
    Url := ti.client.Endpoint ++ "/" ++ ti.client.Project ++ "/log",
    ContentType := "application/json",
    Body := ReqBody.json (Json.obj
      [("item_id", Json.str ti.Id), ("message", Json.str message),
       ("level", Json.str level), ("time", Json.num now)]) }

/-- Request built by getReqForLogWithAttach (test-item.go lines 244 to
297).  The multipart writer emits the parts in the order they are
created: first the json_request_part part whose payload is the
marshalled jsonRequestPart slice of length one, then the file part whose
content is the bytes copied from the attachment reader.  The generated
multipart boundary is passed explicitly. -/
def TestItem.getReqForLogWithAttach (ti : TestItem) (message level : String)
    (attachment : Attachment) (boundary : String) (now : Int) : HttpRequest :=
  let url := ti.client.Endpoint ++ "/" ++ ti.client.Project ++ "/log"
  let f : Json := Json.obj [("name", Json.str attachment.Name)]
  let jsonReqPart : Json := Json.arr
    [Json.obj [("file", f), ("item_id", Json.str ti.Id), ("level", Json.str level),
               ("message", Json.str message), ("time", Json.num now)]]
  let part1 : MultipartPart :=
    { Name := "json_request_part", Filename := none,
      ContentType := "application/json", Content := PartBody.jsonPayload jsonReqPart }
  let part2 : MultipartPart :=
    { Name := "file", Filename := some attachment.Name,
      ContentType := attachment.MimeType, Content := PartBody.bytes attachment.Data }
  { Method := "POST", Url := url,
    ContentType := "multipart/form-data; boundary=" ++ boundary,
    Body := ReqBody.multipart ([part1] ++ [part2]) }

/-- TestItem.Log from the doRequest call onward (test-item.go lines 192
to 201); both request builders are total in this model, so their error
branches are dead and the outcome depends only on the doRequest result:
transport error panics at the deferred close, a status other than 201 is
a returned error, otherwise success; the receiver is never mutated. -/
def TestItem.Log (ti : TestItem) (message level : String) (now : Int) (dr : DoResult) :
    Outcome Unit × TestItem :=
  match dr with
  | DoResult.err _ => (Outcome.crash, ti)
  | DoResult.resp resp =>
      if resp.StatusCode ≠ 201 then
        (Outcome.fail ("failed with status " ++ resp.Status), ti)
      else (Outcome.ok (), ti)

/-- Target URL of Update (test-item.go line 205). -/
def updateUrl (ti : TestItem) : String :=
  ti.client.Endpoint ++ "/" ++ ti.client.Project ++ "/item/" ++ ti.Id ++ "/update"

/-- Marshalled Update request body (test-item.go lines 206 to 209). -/
def updateBody (description : String) (tags : List String) : Json :=
  Json.obj [("description", Json.str description), ("tags", Json.arr (tags.map Json.str))]

/-- TestItem.Update from the doRequest call onward (test-item.go lines
224 to 234): transport error panics at the deferred close, a status other
than 200 is a returned error with the receiver unchanged, and on 200 the
receiver Description and Tags are assigned the given values. -/
def TestItem.Update (ti : TestItem) (description : String) (tags : List String)
    (dr : DoResult) : Outcome Unit × TestItem :=
  match dr with
  | DoResult.err _ => (Outcome.crash, ti)
  | DoResult.resp resp =>
      if resp.StatusCode ≠ 200 then
        (Outcome.fail ("failed with status " ++ resp.Status), ti)
      else (Outcome.ok (), (ti.setDescription description).setTags tags)

/-- History entry of an activity item (client.go lines 372 to 376). -/
structure ActivityHistory where
  Field : String
  NewValue : String
  OldValue : String

/-- Content entry of an activity feed (client.go lines 369 to 383); the
LastModifiedDate time.Time is embedded as epoch millis. -/
structure ActivityContent where
  ActionType : String
  ActivityId : String
  History : List ActivityHistory
  LastModifiedDate : Int
  LoggedObjectRef : String
  ObjectName : String
  ObjectType : String
  ProjectRef : String
  UserRef : String

/-- Page descriptor of an activity feed (client.go lines 384 to 389). -/
structure ActivityPage where
  Number : Int
  Size : Int
  TotalElements : Int
  TotalPages : Int

/-- Activity (client.go lines 368 to 390). -/
structure Activity where
  Content : List ActivityContent
  Page : ActivityPage

/-- TestItem.GetActivity (test-item.go lines 238 to 241): the body is
only a TODO comment and the statement return nil, nil; no request is
built or sent, the returned activity pointer is nil and the returned
error is nil. -/
def TestItem.GetActivity (_ti : TestItem) : Option Activity × Option String :=
  (none, none)

/-- Go strings.HasPrefix as a proposition on character data. -/
abbrev startsP (s p : String) : Prop := p.data <+: s.data

/-- Go strings.HasSuffix as a proposition on character data. -/
abbrev endsP (s t : String) : Prop := t.data <:+ s.data

/-- Go strings.Contains as a proposition on character data. -/
abbrev containsP (s t : String) : Prop := t.data <:+: s.data

/-- Go strings.TrimSuffix: removes one trailing copy of the suffix when
present, otherwise returns the string unchanged. -/
def goTrimSuffix (s suffix : String) : String :=
  if endsP s suffix then String.mk (s.data.take (s.data.length - suffix.data.length)) else s

/-- NewClient (client.go lines 409 to 432): trim one trailing slash,
prepend the https scheme when no scheme is present, coerce the api
version up to 1, and append the version path segment only when the
trimmed endpoint does not already contain the substring /api/v. -/
def NewClient (endpoint project token : String) (apiVersion : Int) : Client :=
  let endpoint := goTrimSuffix endpoint "/"
  let scheme : String :=
    if ¬ startsP endpoint "https://" ∧ ¬ startsP endpoint "http://" then "https://" else ""
  let apiVersion : Int := if apiVersion < 1 then 1 else apiVersion
  let version : String :=
    if ¬ containsP endpoint "/api/v" then "/api/v" ++ toString apiVersion else ""
  { Endpoint := scheme ++ endpoint ++ version, Project := project, Token := token }

/-- Target URL of CheckConnect (client.go line 436). -/
def checkConnectUrl (c : Client) : String := c.Endpoint ++ "/user"

/-- Client.CheckConnect from the doRequest call onward (client.go lines
442 to 451): transport error panics at the deferred close, a status other
than 200 is a returned error, otherwise success. -/
def Client.CheckConnect (_c : Client) (dr : DoResult) : Outcome Unit :=
  match dr with
  | DoResult.err _ => Outcome.crash
  | DoResult.resp resp =>
      if resp.StatusCode ≠ 200 then
        Outcome.fail ("failed with status " ++ resp.Status)
      else Outcome.ok ()

/-- Widget (client.go lines 393 to 397). -/
structure Widget where
  Id : String
  Size : List Int
  Position : List Int

/-- One entry of a dashboard listing (client.go lines 400 to 406); the
widgets are pointers, so each element is optional. -/
structure DashboardEntry where
  Owner : String
  Share : Bool
  Id : String
  Name : String
  Widgets : List (Option Widget)

/-- Dashboard (client.go line 400), a slice of entries. -/
def Dashboard : Type := List DashboardEntry

/-- Field lookup defaulting to null: in Go decoding, an absent key leaves
the zero value, which for these field types coincides with decoding
null. -/
def fieldOrNull (k : String) (fields : List (String × Json)) : Json :=
  match lastLookup k fields with
  | some v => v
  | none => Json.null

def decodeString : Json → Option String
  | Json.str s => some s
  | Json.null => some ""
  | _ => none

def decodeBool : Json → Option Bool
  | Json.bool b => some b
  | Json.null => some false
  | _ => none

def decodeInt : Json → Option Int
  | Json.num n => some n
  | Json.null => some 0
  | _ => none

def decodeIntList : Json → Option (List Int)
  | Json.arr xs => xs.mapM decodeInt
  | Json.null => some []
  | _ => none

/-- Decoding one widget pointer: JSON null yields a nil pointer. -/
def decodeWidget : Json → Option (Option Widget)
  | Json.null => some none
  | Json.obj fields => do
      let i ← decodeString (fieldOrNull "widgetId" fields)
      let s ← decodeIntList (fieldOrNull "widgetSize" fields)
      let p ← decodeIntList (fieldOrNull "widgetPosition" fields)
      some (some (Widget.mk i s p))
  | _ => none

/-- Decoding one dashboard entry; a null element leaves the zero-valued
struct. -/
def decodeDashboardEntry : Json → Option DashboardEntry
  | Json.null => some (DashboardEntry.mk "" false "" "" [])
  | Json.obj fields => do
      let o ← decodeString (fieldOrNull "owner" fields)
      let sh ← decodeBool (fieldOrNull "share" fields)
      let i ← decodeString (fieldOrNull "id" fields)
      let n ← decodeString (fieldOrNull "name" fields)
      let w ←
        match fieldOrNull "widgets" fields with
        | Json.arr xs => xs.mapM decodeWidget
        | Json.null => some []
        | _ => none
      some (DashboardEntry.mk o sh i n w)
  | _ => none

/-- Decoding a response body into the Dashboard pointer GetDashboard
allocates: invalid JSON is a decode error, JSON null leaves the pointer
nil, an array decodes elementwise, anything else is a decode error. -/
def decodeDashboard : Option Json → Option (Option Dashboard)
  | none => none
  | some Json.null => some none
  | some (Json.arr xs) => (xs.mapM decodeDashboardEntry).map some
  | some _ => none

/-- Target URL of GetDashboard (client.go line 456). -/
def getDashboardUrl (c : Client) : String := c.Endpoint ++ "/" ++ c.Project ++ "/dashboard"

/-- Client.GetDashboard from the doRequest call onward (client.go lines
464 to 478): transport error panics at the deferred close, a status other
than 200 or a decode failure is a returned error, otherwise the decoded
dashboard pointer is returned. -/
def Client.GetDashboard (_c : Client) (dr : DoResult) : Outcome (Option Dashboard) :=
  match dr with
  | DoResult.err _ => Outcome.crash
  | DoResult.resp resp =>
      if resp.StatusCode ≠ 200 then
        Outcome.fail ("failed with status " ++ resp.Status)
      else
        match decodeDashboard resp.Body with
        | none => Outcome.fail "failed to decode response for dashboard"
        | some d => Outcome.ok d

/-- Sample connection used by concrete witnesses and counterexamples. -/
def sampleClient : Client := { Endpoint := "https://host/api/v1", Token := "tok", Project := "proj" }

def sampleLaunch : Launch := { Id := "L1", client := sampleClient }

/-- A freshly constructed root entity. -/
def sampleFresh : TestItem := NewTestItem sampleLaunch "Suite A" "desc" "SUITE" [] none

/-- The same entity after a successful Start assigned it the id abc. -/
def sampleStarted : TestItem := sampleFresh.setId "abc"

/-- A child entity whose parent is the started root entity. -/
def sampleChild : TestItem := NewTestItem sampleLaunch "Test 1" "d" "TEST" [] (some sampleStarted)

/-- A 201 response carrying the given JSON body. -/
def resp201 (body : Json) : DoResult :=
  DoResult.resp { StatusCode := 201, Status := "201 Created", Body := some body }

/-- A bare 200 response. -/
def respOk : HttpResponse := { StatusCode := 200, Status := "200 OK", Body := none }

/-- A bare 201 response with a null JSON body. -/
def respCreated : HttpResponse := { StatusCode := 201, Status := "201 Created", Body := some Json.null }

/-- A bare 404 response. -/
def resp404 : HttpResponse := { StatusCode := 404, Status := "404 Not Found", Body := none }

/- Helper lemmas about the field assignments. -/

@[simp] theorem TestItem.setId_Id (ti : TestItem) (v : String) : (ti.setId v).Id = v := by
  cases ti; rfl

@[simp] theorem TestItem.setId_StartTime (ti : TestItem) (v : String) :
    (ti.setId v).StartTime = ti.StartTime := by
  cases ti; rfl

@[simp] theorem TestItem.setDescription_Id (ti : TestItem) (v : String) :
    (ti.setDescription v).Id = ti.Id := by
  cases ti; rfl

@[simp] theorem TestItem.setTags_Id (ti : TestItem) (v : List String) :
    (ti.setTags v).Id = ti.Id := by
  cases ti; rfl

/-- The trimmed string is a leading segment of the original. -/
theorem goTrimSuffix_data_pre (s x : String) : (goTrimSuffix s x).data <+: s.data := by
  unfold goTrimSuffix
  split
  · exact ⟨s.data.drop (s.data.length - x.data.length), List.take_append_drop _ _⟩
  · exact ⟨[], List.append_nil _⟩

/-- A leading substring of the trimmed string is one of the original. -/
theorem startsP_goTrimSuffix {s p x : String} (h : startsP (goTrimSuffix s x) p) :
    startsP s p := by
  obtain ⟨t, ht⟩ := h
  obtain ⟨r, hr⟩ := goTrimSuffix_data_pre s x
  exact ⟨t ++ r, by rw [← List.append_assoc, ht, hr]⟩

/-- A substring of the trimmed string is a substring of the original. -/
theorem containsP_goTrimSuffix {s p x : String} (h : containsP (goTrimSuffix s x) p) :
    containsP s p := by
  obtain ⟨u, v, huv⟩ := h
  obtain ⟨r, hr⟩ := goTrimSuffix_data_pre s x
  exact ⟨u, v ++ r, by rw [← List.append_assoc, huv, hr]⟩

/- Claim theorems. -/

/-- C1 (code bug): the claim says that on any transport failure Start
returns a descriptive error and leaves the Id empty.  On the failing
input, a doRequest transport error, the deferred resp.Body.Close
dereferences the nil response and the call panics instead of returning an
error; the Id is indeed still empty at that point. -/
theorem start_transport_error_crashes :
    (sampleFresh.Start 9 (DoResult.err "connection refused")).1 = Outcome.crash
    ∧ (sampleFresh.Start 9 (DoResult.err "connection refused")).2.Id = "" :=
  ⟨rfl, rfl⟩

/-- C2: Log without an attachment posts to the log URL a single JSON
object with exactly the four fields item_id, message, level and time in
that order; Log with an attachment posts a multipart body with exactly
two parts in order: first json_request_part with content type
application/json whose payload is a JSON array of length one containing
the object with fields file (holding the attachment name), item_id,
level, message and time, then a part named file carrying the attachment
filename, mime type and raw bytes. -/
theorem log_request_encodings (ti : TestItem) (message level : String)
    (attachment : Attachment) (boundary : String) (now : Int) :
    (ti.getReqForLog message level now).Method = "POST"
    ∧ (ti.getReqForLog message level now).Url
        = ti.client.Endpoint ++ "/" ++ ti.client.Project ++ "/log"
    ∧ (ti.getReqForLog message level now).Body
        = ReqBody.json (Json.obj
            [("item_id", Json.str ti.Id), ("message", Json.str message),
             ("level", Json.str level), ("time", Json.num now)])
    ∧ (ti.getReqForLogWithAttach message level attachment boundary now).Method = "POST"
    ∧ (ti.getReqForLogWithAttach message level attachment boundary now).Url
        = ti.client.Endpoint ++ "/" ++ ti.client.Project ++ "/log"
    ∧ (ti.getReqForLogWithAttach message level attachment boundary now).Body
        = ReqBody.multipart
            [{ Name := "json_request_part", Filename := none,
               ContentType := "application/json",
               Content := PartBody.jsonPayload (Json.arr
                 [Json.obj [("file", Json.obj [("name", Json.str attachment.Name)]),
                            ("item_id", Json.str ti.Id), ("level", Json.str level),
                            ("message", Json.str message), ("time", Json.num now)]]) },
             { Name := "file", Filename := some attachment.Name,
               ContentType := attachment.MimeType,
               Content := PartBody.bytes attachment.Data }] :=
  ⟨rfl, rfl, rfl, rfl, rfl, rfl⟩

/-- C3 (code bug): the claim says that on any non-200 status or failure
Update returns an error and leaves local state unchanged.  On the
failing input, a doRequest transport error, the deferred resp.Body.Close
dereferences the nil response and the call panics instead of returning an
error; the local state is indeed unchanged at that point. -/
theorem update_transport_error_crashes :
    (sampleStarted.Update "newdesc" ["t1"] (DoResult.err "network is unreachable")).1
        = Outcome.crash
    ∧ (sampleStarted.Update "newdesc" ["t1"] (DoResult.err "network is unreachable")).2
        = sampleStarted :=
  ⟨rfl, rfl⟩

/-- C4: Start targets endpoint slash project slash item when the parent
is nil, and the same path extended with the parent Id when the parent is
non-nil. -/
theorem start_targets_item_or_parent_item (ti : TestItem) :
    (ti.Parent = none →
      startUrl ti = ti.client.Endpoint ++ "/" ++ ti.client.Project ++ "/item")
    ∧ ∀ p : TestItem, ti.Parent = some p →
      startUrl ti = ti.client.Endpoint ++ "/" ++ ti.client.Project ++ "/item/" ++ p.Id := by
  constructor
  · intro h
    simp [startUrl, h]
  · intro p h
    simp [startUrl, h]

/-- C4 witness: the root sample entity targets the bare item path and the
child sample entity targets the path ending in the parent id. -/
theorem start_targets_item_or_parent_item_witness :
    startUrl sampleFresh
      = sampleFresh.client.Endpoint ++ "/" ++ sampleFresh.client.Project ++ "/item"
    ∧ startUrl sampleChild
      = sampleChild.client.Endpoint ++ "/" ++ sampleChild.client.Project ++ "/item/"
          ++ sampleStarted.Id :=
  ⟨(start_targets_item_or_parent_item sampleFresh).1 rfl,
   (start_targets_item_or_parent_item sampleChild).2 sampleStarted rfl⟩

/-- C5 counterexample: for the schemeless endpoint example.com/api/v2
with apiVersion 5 the produced Endpoint is https with the raw version
segment v2 kept verbatim, so it does not end with /api/v5 as the claim
requires. -/
theorem newClient_existing_api_segment_counterexample :
    (NewClient "example.com/api/v2" "proj" "tok" 5).Endpoint = "https://example.com/api/v2"
    ∧ ¬ endsP (NewClient "example.com/api/v2" "proj" "tok" 5).Endpoint
        ("/api/v" ++ toString (5 : Int)) := by
  constructor
  · decide
  · decide

/-- C5 (amended): for every raw endpoint that lacks an http or https
scheme AND does not already contain the substring /api/v, NewClient
produces an Endpoint that starts with https:// and ends with /api/v
followed by the given apiVersion coerced to exactly 1 whenever it is
below 1. -/
theorem newClient_schemeless_endpoint (endpoint project token : String) (apiVersion : Int)
    (h1 : ¬ startsP endpoint "https://") (h2 : ¬ startsP endpoint "http://")
    (h3 : ¬ containsP endpoint "/api/v") :
    startsP (NewClient endpoint project token apiVersion).Endpoint "https://"
    ∧ endsP (NewClient endpoint project token apiVersion).Endpoint
        ("/api/v" ++ toString (if apiVersion < 1 then (1 : Int) else apiVersion)) := by
  have h1' : ¬ startsP (goTrimSuffix endpoint "/") "https://" :=
    fun h => h1 (startsP_goTrimSuffix h)
  have h2' : ¬ startsP (goTrimSuffix endpoint "/") "http://" :=
    fun h => h2 (startsP_goTrimSuffix h)
  have h3' : ¬ containsP (goTrimSuffix endpoint "/") "/api/v" :=
    fun h => h3 (containsP_goTrimSuffix h)
  have hE : (NewClient endpoint project token apiVersion).Endpoint
      = "https://" ++ goTrimSuffix endpoint "/"
        ++ ("/api/v" ++ toString (if apiVersion < 1 then (1 : Int) else apiVersion)) := by
    simp [NewClient, h1', h2', h3']
  rw [hE]
  constructor
  · exact ⟨(goTrimSuffix endpoint "/").data
        ++ ("/api/v" ++ toString (if apiVersion < 1 then (1 : Int) else apiVersion)).data,
      by simp [String.data_append]⟩
  · exact ⟨"https://".data ++ (goTrimSuffix endpoint "/").data,
      by simp [String.data_append]⟩

/-- C5 witness: the amended theorem applied to the schemeless endpoint
example.com with apiVersion 0, which is coerced to 1. -/
theorem newClient_schemeless_endpoint_witness :
    startsP (NewClient "example.com" "proj" "tok" 0).Endpoint "https://"
    ∧ endsP (NewClient "example.com" "proj" "tok" 0).Endpoint
        ("/api/v" ++ toString (if (0 : Int) < 1 then (1 : Int) else 0)) :=
  newClient_schemeless_endpoint "example.com" "proj" "tok" 0
    (by decide) (by decide) (by decide)

/-- C6 (code bug): GetActivity returns a nil activity pointer together
with a nil error, the success signal, for every receiver; by definition
it builds no request and contacts no endpoint, so it silently appears to
succeed, which the claim forbids. -/
theorem getActivity_silent_success (ti : TestItem) :
    ti.GetActivity = (none, none) :=
  rfl

/-- C7 counterexample: starting an already started entity again with a
201 response carrying a different id overwrites the previously assigned
id, so the Id field is not immutable after the first successful Start. -/
theorem repeated_start_overwrites_id_counterexample :
    ((sampleFresh.Start 1 (resp201 (Json.obj [("id", Json.str "abc")]))).2).Id = "abc"
    ∧ (((sampleFresh.Start 1 (resp201 (Json.obj [("id", Json.str "abc")]))).2.Start 2
          (resp201 (Json.obj [("id", Json.str "xyz")]))).2).Id = "xyz"
    ∧ ("xyz" : String) ≠ "abc" := by
  refine ⟨rfl, rfl, by decide⟩

/-- C7 (amended): the Id is empty at construction, Finish, Log and
Update never change it, and a Start that does not succeed leaves it
unchanged; only a successful Start (including a repeated one, which the
counterexample shows can overwrite it) assigns the Id. -/
theorem id_assignment_discipline (launch : Launch) (name description itemType : String)
    (tags : List String) (parent : Option TestItem) (ti : TestItem)
    (now now2 now4 : Int) (status message level d : String) (tags2 : List String)
    (dr1 dr2 dr3 dr4 : DoResult)
    (hfail : (ti.Start now4 dr4).1 ≠ Outcome.ok ()) :
    (NewTestItem launch name description itemType tags parent).Id = ""
    ∧ (ti.Finish now status dr1).2.Id = ti.Id
    ∧ (ti.Log message level now2 dr2).2.Id = ti.Id
    ∧ (ti.Update d tags2 dr3).2.Id = ti.Id
    ∧ (ti.Start now4 dr4).2.Id = ti.Id := by
  refine ⟨rfl, ?_, ?_, ?_, ?_⟩
  · cases dr1 with
    | err e => rfl
    | resp r =>
        simp only [TestItem.Finish]
        split <;> rfl
  · cases dr2 with
    | err e => rfl
    | resp r =>
        simp only [TestItem.Log]
        split <;> rfl
  · cases dr3 with
    | err e => rfl
    | resp r =>
        simp only [TestItem.Update]
        split
        · rfl
        · simp
  · cases dr4 with
    | err e => rfl
    | resp r =>
        by_cases hs : r.StatusCode ≠ 201
        · simp [TestItem.Start, hs]
        · cases hdec : decodeIdBody r.Body with
          | none => simp [TestItem.Start, hs, hdec]
          | some v => exact absurd (by simp [TestItem.Start, hs, hdec]) hfail

/-- C7 witness: the amended theorem applied to the started sample entity
with a 200 Finish, a 201 Log, a 200 Update and a 404 Start, whose
outcome is a returned error and not success. -/
theorem id_assignment_discipline_witness :
    (NewTestItem sampleLaunch "Suite A" "desc" "SUITE" [] none).Id = ""
    ∧ (sampleStarted.Finish 4 "PASSED" (DoResult.resp respOk)).2.Id = sampleStarted.Id
    ∧ (sampleStarted.Log "m" "info" 6 (DoResult.resp respCreated)).2.Id = sampleStarted.Id
    ∧ (sampleStarted.Update "d" ["t"] (DoResult.resp respOk)).2.Id = sampleStarted.Id
    ∧ (sampleStarted.Start 5 (DoResult.resp resp404)).2.Id = sampleStarted.Id :=
  id_assignment_discipline sampleLaunch "Suite A" "desc" "SUITE" [] none sampleStarted
    4 6 5 "PASSED" "m" "info" "d" ["t"]
    (DoResult.resp respOk) (DoResult.resp respCreated) (DoResult.resp respOk)
    (DoResult.resp resp404) (by decide)

/-- C8 (code bug): the claim says every operation returns an error value
to its caller for every doRequest outcome and no outcome is fatal.  On a
doRequest transport error each of Start, Finish, Log, Update,
CheckConnect and GetDashboard evaluates resp.Body at the deferred close
with a nil response and panics. -/
theorem all_operations_crash_on_transport_error :
    (sampleChild.Start 3 (DoResult.err "dial tcp: connection refused")).1 = Outcome.crash
    ∧ (sampleStarted.Finish 4 "FAILED" (DoResult.err "dial tcp: connection refused")).1
        = Outcome.crash
    ∧ (sampleStarted.Log "boom" "error" 5 (DoResult.err "dial tcp: connection refused")).1
        = Outcome.crash
    ∧ (sampleStarted.Update "d2" ["t2"] (DoResult.err "dial tcp: connection refused")).1
        = Outcome.crash
    ∧ sampleClient.CheckConnect (DoResult.err "dial tcp: connection refused") = Outcome.crash
    ∧ sampleClient.GetDashboard (DoResult.err "dial tcp: connection refused") = Outcome.crash :=
  ⟨rfl, rfl, rfl, rfl, rfl, rfl⟩

/-- C9 counterexample: a successful Start at wall-clock time 42 leaves
the StartTime field at its construction value 0, which differs from 42,
and the Start request body does transmit the field start_time with value
42; both halves of the claim fail on this input. -/
theorem start_ignores_startTime_field_counterexample :
    ((sampleFresh.Start 42 (resp201 (Json.obj [("id", Json.str "abc")]))).2).StartTime = 0
    ∧ (0 : Int) ≠ 42
    ∧ lastLookup "start_time" (startReqFields sampleFresh 42) = some (Json.num 42) := by
  refine ⟨rfl, by decide, rfl⟩

/-- C9 (amended): Start never modifies the StartTime field of the
entity, for any doRequest outcome, and the call-time wall clock is
transmitted as the start_time field of the Start request body. -/
theorem start_preserves_startTime_and_transmits_time (ti : TestItem) (now : Int)
    (dr : DoResult) :
    (ti.Start now dr).2.StartTime = ti.StartTime
    ∧ lastLookup "start_time" (startReqFields ti now) = some (Json.num now) := by
  constructor
  · cases dr with
    | err e => rfl
    | resp r =>
        by_cases hs : r.StatusCode ≠ 201
        · simp [TestItem.Start, hs]
        · cases hdec : decodeIdBody r.Body with
          | none => simp [TestItem.Start, hs, hdec]
          | some v => simp [TestItem.Start, hs, hdec]
  · rfl

/-- Decoding an object none of whose keys matches the id field, even
case-insensitively, leaves the accumulated field value untouched. -/
theorem decodeIdFields_no_match (acc : String) (fields : List (String × Json))
    (h : ∀ kv ∈ fields, keyFold kv.1 "id" = false) :
    decodeIdFields acc fields = some acc := by
  induction fields with
  | nil => rfl
  | cons kv rest ih =>
      have hk : keyFold kv.1 "id" = false := h kv (List.mem_cons_self kv rest)
      have hrest := ih fun kv2 hm => h kv2 (List.mem_cons_of_mem kv hm)
      cases kv with
      | mk k v => simp [decodeIdFields, hk, hrest]

/-- C10: when Start receives a 201 response whose body is a JSON object
that contains no id field, meaning no key the Go decoder maps to the id
struct field (field-name matching is case-insensitive), the decode
succeeds with the zero value, Start returns no error, and the entity Id
remains the empty string. -/
theorem start_201_without_id_keeps_empty_id (ti : TestItem) (now : Int) (st : String)
    (fields : List (String × Json)) (h0 : ti.Id = "")
    (h : ∀ kv ∈ fields, keyFold kv.1 "id" = false) :
    (ti.Start now (DoResult.resp
        { StatusCode := 201, Status := st, Body := some (Json.obj fields) })).1
      = Outcome.ok ()
    ∧ (ti.Start now (DoResult.resp
        { StatusCode := 201, Status := st, Body := some (Json.obj fields) })).2.Id
      = "" := by
  have hdec : decodeIdBody (some (Json.obj fields)) = some "" := by
    simp [decodeIdBody, decodeIdObj, decodeIdFields_no_match "" fields h]
  constructor
  · simp [TestItem.Start, hdec]
  · simp [TestItem.Start, hdec]

/-- C10 witness: the fresh sample entity started against a 201 response
with the empty JSON object body ends with no error and an empty Id. -/
theorem start_201_without_id_keeps_empty_id_witness :
    (sampleFresh.Start 7 (DoResult.resp
        { StatusCode := 201, Status := "201 Created", Body := some (Json.obj []) })).1
      = Outcome.ok ()
    ∧ (sampleFresh.Start 7 (DoResult.resp
        { StatusCode := 201, Status := "201 Created", Body := some (Json.obj []) })).2.Id
      = "" :=
  start_201_without_id_keeps_empty_id sampleFresh 7 "201 Created" [] rfl (by simp)
